import Mathlib

/-!
Verification of the benchmark orchestrator (`run_benchmark.py`), the result
reporter (`plot_results.py`) and the seed endpoint of the service
(`app/endpoints/db_endpoints.py`) against their natural-language
specification.  Every definition below is a shallow embedding translated
from the Python source; floating-point quantities are modelled over `ℚ`.
-/

namespace Bench

/-! ## Vegeta report and the per-test metrics record
    (`run_benchmark.py`, `main`, lines 429-461) -/

/-- The latency block of a vegeta JSON report: nanosecond values under
keys `50th`, `95th`, `99th`, `mean` (field `latencies` of `bench_data`). -/
structure Latencies where
  p50th : ℚ
  p95th : ℚ
  p99th : ℚ
  mean : ℚ
deriving Repr, DecidableEq

/-- The fields of a vegeta JSON report that `main` reads:
`requests` (int), `success` (fraction), `rate` (float), `latencies`. -/
structure VegetaReport where
  requests : ℕ
  success : ℚ
  rate : ℚ
  latencies : Latencies
deriving Repr, DecidableEq

/-- Summary of the resource series of one cycle, as produced by
`analyze_cpu_data` (`run_benchmark.py` lines 179-197). -/
structure CpuStats where
  avg_cpu : ℚ
  max_cpu : ℚ
  avg_memory_mb : ℚ
  max_memory_mb : ℚ
deriving Repr, DecidableEq

/-- One entry of `benchmark_results[rate][func_name]`
(`run_benchmark.py` lines 447-461). -/
structure TestMetricsRecord where
  achieved_rps : ℚ
  target_rps : ℕ
  p50_ms : ℚ
  p95_ms : ℚ
  p99_ms : ℚ
  avg_ms : ℚ
  success_rate : ℚ
  error_rate : ℚ
  total_requests : ℕ
  cpu_avg : ℚ
  cpu_max : ℚ
  memory_avg_mb : ℚ
  memory_max_mb : ℚ
deriving Repr, DecidableEq

/-- The Python builtin `int(...)` on a decimal-digit string: `none` models the
`ValueError` raised on empty or non-numeric text. -/
def parseDecimal (cs : List Char) : Option ℕ :=
  if cs.isEmpty then none
  else cs.foldl
    (fun acc c => acc.bind
      (fun n => if c.isDigit then some (10 * n + (c.toNat - 48)) else none))
    (some 0)

/-- Embedding of `duration_seconds = int(duration[:-1])` (`run_benchmark.py` line 435):
the duration flag is a string such as `"10s"`; the code drops the final
character and parses the rest as an integer. -/
def durationSecondsOf (duration : String) : Option ℕ :=
  parseDecimal duration.toList.dropLast

/-- The metric computation of `main` (`run_benchmark.py` lines 433-461):
`successful_requests = total_requests * success_rate`,
`actual_achieved_rps = successful_requests / duration_seconds if
duration_seconds > 0 else 0`, latencies divided by `1e6`, and
`error_rate = 1 - success_rate`. -/
def buildRecord (rate : ℕ) (bench : VegetaReport) (durationSeconds : ℕ)
    (cpuStats : CpuStats) : TestMetricsRecord :=
  let successfulRequests : ℚ := (bench.requests : ℚ) * bench.success
  let actualAchievedRps : ℚ :=
    if 0 < durationSeconds then successfulRequests / (durationSeconds : ℚ) else 0
  { achieved_rps := actualAchievedRps
    target_rps := rate
    p50_ms := bench.latencies.p50th / 1000000
    p95_ms := bench.latencies.p95th / 1000000
    p99_ms := bench.latencies.p99th / 1000000
    avg_ms := bench.latencies.mean / 1000000
    success_rate := bench.success
    error_rate := 1 - bench.success
    total_requests := bench.requests
    cpu_avg := cpuStats.avg_cpu
    cpu_max := cpuStats.max_cpu
    memory_avg_mb := cpuStats.avg_memory_mb
    memory_max_mb := cpuStats.max_memory_mb }

/-! ## Resource-series analysis (`analyze_cpu_data`, lines 179-197) -/

/-- One sample of `monitor_cpu_fast`: a dict with fields `timestamp`,
`cpu_percent` and `rss_mb` (`run_benchmark.py` lines 158-162). -/
structure ResourceSample where
  timestamp : ℚ
  cpu_percent : ℚ
  rss_mb : ℚ
deriving Repr, DecidableEq

/-- The Python builtin `max` over a non-empty list, head-seeded fold. -/
def listMax (x : ℚ) (xs : List ℚ) : ℚ :=
  xs.foldl max x

/-- Embedding of `analyze_cpu_data(cpu_data)` (`run_benchmark.py` lines 179-197):
all-zero summary for an empty list, otherwise arithmetic mean and maximum
of the `cpu_percent` and `rss_mb` columns. -/
def analyze_cpu_data : List ResourceSample → CpuStats
  | [] =>
    { avg_cpu := 0, max_cpu := 0, avg_memory_mb := 0, max_memory_mb := 0 }
  | s :: rest =>
    let cpuValues := (s :: rest).map ResourceSample.cpu_percent
    let memoryValues := (s :: rest).map ResourceSample.rss_mb
    { avg_cpu := cpuValues.sum / (cpuValues.length : ℚ)
      max_cpu := listMax s.cpu_percent (rest.map ResourceSample.cpu_percent)
      avg_memory_mb := memoryValues.sum / (memoryValues.length : ℚ)
      max_memory_mb := listMax s.rss_mb (rest.map ResourceSample.rss_mb) }

/-! ## The per-pair test cycle (`run_benchmark.py`, `main`, lines 315-473)

The body of the double loop over rates and endpoints, abstracted over which
step (if any) fails.  Each constructor names one concrete failure mode of
the Python code; `success` is the unexceptional path. -/

inductive CycleEvent
  /-- step where `start_server` raises (line 325), e.g. `FileNotFoundError` because
  `uvicorn` is missing; `Popen` raises before the proc is registered. -/
  | spawnRaises
  /-- step where `wait_for_server` returns `False` after its 30 s timeout (line 329). -/
  | healthTimeout
  /-- the seed `curl` exits non-zero with `check=True`:
  `subprocess.CalledProcessError`, caught at line 342. -/
  | seedCalledProcessError
  /-- the seed `curl` exceeds `timeout=10`: `subprocess.TimeoutExpired`,
  which is NOT a `CalledProcessError` and so is not caught (lines 337-345). -/
  | seedTimeoutExpired
  /-- the smoke-check `curl` exits non-zero (line 365). -/
  | smokeNonzeroExit
  /-- the smoke-check `curl` exceeds `timeout=5`: caught at line 370. -/
  | smokeTimeoutExpired
  /-- step where `vegeta attack` exits non-zero (line 407), inside the try/finally. -/
  | vegetaNonzeroExit
  /-- any other exception inside the attack/report/record block, caught by
  `except Exception` at line 466. -/
  | attackPhaseRaises
  /-- the cycle runs to completion and stores its record (lines 447-461). -/
  | success
deriving DecidableEq, Repr

inductive CycleOutcome
  /-- a `TestMetricsRecord` was stored and the loop continues. -/
  | recorded
  /-- the cycle was abandoned (`continue` or handled exception); the loop
  moves on to the next (rate, endpoint) pair. -/
  | skipped
  /-- an exception propagated out of the loop body: the whole run aborts
  with a traceback and a non-zero interpreter exit. -/
  | raised
deriving DecidableEq, Repr

structure CycleResult where
  outcome : CycleOutcome
  /-- state of `active_processes` (pids) after the cycle body ends, however it ends. -/
  registry : List ℕ
  /-- whether `stop_server` was invoked on the instance of this cycle. -/
  stopServerCalled : Bool
deriving DecidableEq, Repr

/-- One iteration of the benchmark loop (`run_benchmark.py` lines 315-473),
given the pid the fresh server gets and the failure mode `e` of this cycle.
Every `continue` branch of the source calls `stop_server` first; the vegeta
and attack-phase branches reach `stop_server` through the `finally` block
(lines 469-473).  `start_server` appends the proc to `active_processes`
(line 221) and `stop_server` removes it (lines 230-231). -/
def runCycle (e : CycleEvent) (registry : List ℕ) (pid : ℕ) : CycleResult :=
  if e = .spawnRaises then
    { outcome := .raised, registry := registry, stopServerCalled := false }
  else
    let reg := registry ++ [pid]
    if e = .healthTimeout then
      { outcome := .skipped, registry := reg.erase pid, stopServerCalled := true }
    else if e = .seedCalledProcessError then
      { outcome := .skipped, registry := reg.erase pid, stopServerCalled := true }
    else if e = .seedTimeoutExpired then
      { outcome := .raised, registry := reg, stopServerCalled := false }
    else if e = .smokeNonzeroExit then
      { outcome := .skipped, registry := reg.erase pid, stopServerCalled := true }
    else if e = .smokeTimeoutExpired then
      { outcome := .skipped, registry := reg.erase pid, stopServerCalled := true }
    else if e = .vegetaNonzeroExit then
      { outcome := .skipped, registry := reg.erase pid, stopServerCalled := true }
    else if e = .attackPhaseRaises then
      { outcome := .skipped, registry := reg.erase pid, stopServerCalled := true }
    else
      { outcome := .recorded, registry := reg.erase pid, stopServerCalled := true }

/-! ## `stop_server` (`run_benchmark.py` lines 224-243) -/

/-- A `subprocess.Popen` handle: `returncode` is `none` while the child has
not been reaped, and the (possibly negative) exit status afterwards. -/
structure Proc where
  pid : ℕ
  returncode : Option ℤ
deriving DecidableEq, Repr

/-- How the child reacts to SIGTERM during the 5 s grace period of
`proc.wait(timeout=5)`. -/
inductive TermBehavior
  /-- exits within the grace period. -/
  | exitsOnTerm
  /-- survives SIGTERM; `wait` raises `TimeoutExpired` and the process is
  then force-killed (lines 236-241). -/
  | ignoresTerm
deriving DecidableEq, Repr

structure StopResult where
  proc : Proc
  registry : List ℕ
  /-- whether the call let an exception escape (the source catches
  `TimeoutExpired` and `ProcessLookupError`, and swallows kill errors). -/
  raisedError : Bool
deriving DecidableEq, Repr

/-- Embedding of `stop_server(server_proc)` (`run_benchmark.py` lines 224-243):
remove the proc from `active_processes` if present, `terminate()` it —
a no-op on an already-reaped child, whose `returncode` is set — then
`wait(5)`, escalating to `kill()` on timeout.  No exception escapes. -/
def stop_server (p : Proc) (behavior : TermBehavior) (registry : List ℕ) :
    StopResult :=
  let reg := registry.erase p.pid
  match p.returncode with
  | some _ =>
    { proc := p, registry := reg, raisedError := false }
  | none =>
    match behavior with
    | .exitsOnTerm =>
      { proc := { p with returncode := some (-15) }, registry := reg,
        raisedError := false }
    | .ignoresTerm =>
      { proc := { p with returncode := some (-9) }, registry := reg,
        raisedError := false }

/-! ## Endpoint discovery (`discover_benchmark_endpoints`, lines 105-134) -/

/-- One entry of `app.routes`: path template, HTTP method set, and the
`__name__` of the route handler. -/
structure Route where
  path : String
  methods : List String
  endpointName : String
deriving DecidableEq, Repr

/-- The Python method `str.startswith`, on the underlying character sequences. -/
def pathStartsWith (s pre : String) : Bool :=
  pre.toList.isPrefixOf s.toList

/-- The fixed denylist of line 116: root, health, the API-doc routes and
the seed route. -/
def infrastructurePaths : List String :=
  ["/", "/health", "/openapi.json", "/docs", "/docs/oauth2-redirect",
   "/redoc", "/api/db/seed"]

/-- The per-route retention test of lines 113-122: the route must carry GET
or POST, not be denylisted, and — when the (truthy) filter string is given —
start with it.  `if path_filter:` is false for `none` and for `""`. -/
def routeKept (pathFilter : Option String) (r : Route) : Bool :=
  (r.methods.contains "GET" || r.methods.contains "POST")
  && !(infrastructurePaths.contains r.path)
  && (match pathFilter with
      | some p => p.isEmpty || pathStartsWith r.path p
      | none => true)

/-- Embedding of `discover_benchmark_endpoints(path_filter)` (lines 105-134): build the
`func_name -> route` mapping over `app.routes`; `importOk = false` models
`from app.main import app` raising, in which case the surrounding
`except Exception` logs the error and returns the EMPTY dict `{}`
(lines 132-134) — no exception leaves the function. -/
def discover_benchmark_endpoints (importOk : Bool) (routes : List Route)
    (pathFilter : Option String) : List (String × Route) :=
  if importOk then
    (routes.filter (routeKept pathFilter)).map (fun r => (r.endpointName, r))
  else
    []

/-- The route table of `app/main.py`: the four documentation routes created
by `FastAPI(...)`, the routers included at lines 29-30 (`simple_router`
from `simple_endpoints.py`, `bench_router` from `db_endpoints.py` with
prefix `/api/db`), then `/` and `/health`. -/
def appRoutes : List Route :=
  [⟨"/openapi.json", ["GET", "HEAD"], "openapi"⟩,
   ⟨"/docs", ["GET", "HEAD"], "swagger_ui_html"⟩,
   ⟨"/docs/oauth2-redirect", ["GET", "HEAD"], "swagger_ui_redirect"⟩,
   ⟨"/redoc", ["GET", "HEAD"], "redoc_html"⟩,
   ⟨"/api/simple/async/{item_id}", ["GET"], "simple_async"⟩,
   ⟨"/api/simple/sync_threadpool/{item_id}", ["GET"], "simple_sync_threadpool"⟩,
   ⟨"/api/simple/async_blocking/{item_id}", ["GET"], "simple_async_blocking"⟩,
   ⟨"/api/db/seed", ["POST"], "seed_data"⟩,
   ⟨"/api/db/async/read/{item_id}", ["GET"], "get_item_async"⟩,
   ⟨"/api/db/async/write/{item_id}", ["POST"], "update_item_async_write"⟩,
   ⟨"/api/db/sync_threadpool/read/{item_id}", ["GET"],
    "get_item_sync_threadpool_read"⟩,
   ⟨"/api/db/sync_threadpool/write/{item_id}", ["POST"],
    "update_item_sync_threadpool_write"⟩,
   ⟨"/api/db/async/blocking/read/{item_id}", ["GET"],
    "get_item_async_blocking_read"⟩,
   ⟨"/api/db/async/blocking/write/{item_id}", ["POST"],
    "update_item_async_blocking_write"⟩,
   ⟨"/", ["GET"], "root"⟩,
   ⟨"/health", ["GET"], "health"⟩]

/-- The exit status of the orchestrator process.  `main` returns `None`
both after a completed run and after the early `return` on an empty
discovery result (lines 287-289), so the interpreter exits 0; only an
exception escaping `main` — a cycle whose failure mode propagates —
produces a traceback and exit status 1. -/
def mainExitCode (importOk : Bool) (routes : List Route)
    (pathFilter : Option String) (cycleEvents : List CycleEvent) : ℕ :=
  if (discover_benchmark_endpoints importOk routes pathFilter).isEmpty then
    0
  else if cycleEvents.any (fun e => (runCycle e [] 0).outcome = .raised) then
    1
  else
    0

/-! ## The sampling loop (`monitor_cpu_fast`, lines 136-177) -/

/-- What one iteration of the `while` loop observes: the outcome of the
`ps -p pid -o pcpu,rss` probe for that tick. -/
inductive PollOutcome
  /-- tick where `ps` exits 0 and prints a parsable `pcpu rss` line. -/
  | sample (cpu : ℚ) (rssKb : ℕ)
  /-- a line whose first column is the `%CPU` header: skipped (line 152). -/
  | headerOnly
  /-- tick where `float` or `int` raise `ValueError`: the inner `continue` (line 163). -/
  | unparsableLine
  /-- tick where `ps` exits non-zero (process already exited, permission denied):
  the `if` at line 148 fails and no sample is appended. -/
  | psNonzeroExit
  /-- tick where `ps` exits 0 with blank stdout. -/
  | emptyOutput
  /-- the probe raises, e.g. `subprocess.TimeoutExpired` after `timeout=5`:
  caught by `except Exception` (line 171), which prints and `break`s. -/
  | raisesException
deriving DecidableEq, Repr

/-- The sampling loop of `monitor_cpu_fast` (lines 141-173), over the
schedule of per-tick probe outcomes (the `while` clock bounds the schedule
to one entry per second of `duration`).  Returns the collected
`(cpu_percent, rss_mb)` samples, with `rss_mb = rss_kb / 1024`. -/
def monitor_cpu_fast : List PollOutcome → List (ℚ × ℚ)
  | [] => []
  | .sample cpu rssKb :: rest => (cpu, (rssKb : ℚ) / 1024) :: monitor_cpu_fast rest
  | .headerOnly :: rest => monitor_cpu_fast rest
  | .unparsableLine :: rest => monitor_cpu_fast rest
  | .psNonzeroExit :: rest => monitor_cpu_fast rest
  | .emptyOutput :: rest => monitor_cpu_fast rest
  | .raisesException :: _ => []

/-! ## Run lookup in the reporter (`plot_results.py`, lines 10-30) -/

/-- The run-directory name the orchestrator creates
(`run_benchmark.py` line 277): `.tmp/clean_bench_{timestamp}`. -/
def cleanBenchDirName (timestamp : String) : String :=
  "clean_bench_" ++ timestamp

/-- The results file the orchestrator writes into that directory
(`run_benchmark.py` line 508). -/
def orchestratorResultsFile : String :=
  "clean_results.json"

/-- The results file `load_benchmark_data` opens (`plot_results.py`
line 27). -/
def reporterResultsFile : String :=
  "fast_cpu_results.json"

/-- Whether a `.tmp` entry matches either glob of
`find_latest_benchmark_dir` (`plot_results.py` line 17):
`bench_*` or `fast_cpu_bench_*`. -/
def matchesBenchGlobs (name : String) : Bool :=
  pathStartsWith name "bench_" || pathStartsWith name "fast_cpu_bench_"

/-- Embedding of `find_latest_benchmark_dir` (`plot_results.py` lines 10-23) over the
`.tmp` entries, each a (name, mtime) pair: filter by the two globs, raise
`FileNotFoundError` (`none`) when nothing matches, otherwise the first
entry of maximal mtime (the Python builtin `max`). -/
def find_latest_benchmark_dir (entries : List (String × ℕ)) :
    Option (String × ℕ) :=
  match entries.filter (fun e => matchesBenchGlobs e.1) with
  | [] => none
  | c :: cs => some (cs.foldl (fun best e => if best.2 < e.2 then e else best) c)

/-! ## The seed endpoint (`app/endpoints/db_endpoints.py`, lines 22-36) -/

/-- A JSON value occurring in the dict the handler returns: the `inserted`
field is an int, the `error` field is the string `str(e)`. -/
inductive JsonValue
  | int (n : ℤ)
  | str (s : String)
deriving DecidableEq, Repr

/-- The JSON body the handler returns: an ordered dict of fields. -/
def SeedBody : Type := List (String × JsonValue)

instance : DecidableEq SeedBody := by
  unfold SeedBody
  infer_instance

instance : Repr SeedBody := by
  unfold SeedBody
  infer_instance

/-- The response the endpoint produces once the framework has serialized
the handler result: HTTP status plus the body. -/
structure SeedResponse where
  status : ℕ
  body : SeedBody
deriving DecidableEq, Repr

/-- A row of `bench_items`: (id, name, value). -/
def BenchRow : Type := ℕ × String × ℤ

instance : DecidableEq BenchRow := by
  unfold BenchRow
  infer_instance

/-- The handler function `seed_data()` (`db_endpoints.py` lines 22-36):
`dbError` models the database session raising inside the `try`.  The
handler itself never raises: every exception is caught and the handler
returns the dict `{"inserted": 0, "error": str(e)}`, the store untouched;
an empty table is filled with items 1..2000 and answered
`{"inserted": 2000}`; a populated one is left alone with
`{"inserted": 0}`. -/
def seed_data_handler (dbError : Option String) (store : List BenchRow) :
    SeedBody × List BenchRow :=
  match dbError with
  | some e => ([("inserted", .int 0), ("error", .str e)], store)
  | none =>
    if store.isEmpty then
      let values : List BenchRow :=
        (List.range 2000).map
          (fun i => (i + 1, "item-" ++ toString (i + 1), ((i + 1 : ℕ) : ℤ)))
      ([("inserted", .int values.length)], values)
    else
      ([("inserted", .int 0)], store)

/-- Whether a field value passes pydantic validation against the value
type `int` of the response model: an int always does, a string only when
it coerces to an integer (lax mode parses a decimal numeral). -/
def validatesAsInt : JsonValue → Bool
  | .int _ => true
  | .str s => (parseDecimal s.toList).isSome

/-- The route decorator serializes the handler result through the response
model declared by the return annotation `-> dict[str, int]`
(`db_endpoints.py` line 23): a body all of whose field values validate as
`int` is answered 200; otherwise FastAPI raises
`ResponseValidationError`, answered as HTTP 500 Internal Server Error. -/
def seedResponseStatus (body : SeedBody) : ℕ :=
  if body.all (fun f => validatesAsInt f.2) then 200 else 500

/-- The seed endpoint as a client sees it: the handler of lines 22-36
composed with the response-model serialization of the `dict[str, int]`
annotation on line 23. -/
def seed_data (dbError : Option String) (store : List BenchRow) :
    SeedResponse × List BenchRow :=
  let handled := seed_data_handler dbError store
  ({ status := seedResponseStatus handled.1, body := handled.1 }, handled.2)

/-- The seed step of the orchestrator (`run_benchmark.py` lines 338-340): the
`curl` has no `-f`, so its exit status is 0 whenever an HTTP response
arrives, whatever that response is; `check=True` therefore only trips on a
connection-level failure.  The response content is never inspected. -/
def seedStepAccepts (connected : Bool) (_resp : SeedResponse) : Bool :=
  connected

end Bench

/-! ## Theorems -/

/-- C1: for every completed cycle the achieved RPS of the record is
(reported requests × success fraction) / duration seconds, the latency
fields are the nanosecond latencies of the report divided by 1e6, and in
particular requests=1000, success=0.9, mean=5 000 000 ns over 10 s give
achieved_rps = 90 and avg_ms = 5. -/
theorem C1_record_metrics (rate : ℕ) (bench : Bench.VegetaReport)
    (durationSeconds : ℕ) (cpuStats : Bench.CpuStats)
    (hdur : 0 < durationSeconds) :
    (Bench.buildRecord rate bench durationSeconds cpuStats).achieved_rps
      = (bench.requests : ℚ) * bench.success / (durationSeconds : ℚ)
    ∧ (Bench.buildRecord rate bench durationSeconds cpuStats).p50_ms
      = bench.latencies.p50th / 1000000
    ∧ (Bench.buildRecord rate bench durationSeconds cpuStats).p95_ms
      = bench.latencies.p95th / 1000000
    ∧ (Bench.buildRecord rate bench durationSeconds cpuStats).p99_ms
      = bench.latencies.p99th / 1000000
    ∧ (Bench.buildRecord rate bench durationSeconds cpuStats).avg_ms
      = bench.latencies.mean / 1000000 := by
  refine ⟨?_, rfl, rfl, rfl, rfl⟩
  simp [Bench.buildRecord, hdur]

/-- C1 witness: the scenario of the spec, rate 100 and duration `"10s"`, a report
with requests=1000, success=0.9, mean latency 5 000 000 ns: the record has
achieved_rps = 90 and avg_ms = 5. -/
theorem C1_record_metrics_witness :
    Bench.durationSecondsOf "10s" = some 10
    ∧ (Bench.buildRecord 100
        { requests := 1000, success := 9/10, rate := 100,
          latencies := { p50th := 4000000, p95th := 6000000,
                         p99th := 7000000, mean := 5000000 } }
        10 { avg_cpu := 0, max_cpu := 0, avg_memory_mb := 0, max_memory_mb := 0 }
      ).achieved_rps = 90
    ∧ (Bench.buildRecord 100
        { requests := 1000, success := 9/10, rate := 100,
          latencies := { p50th := 4000000, p95th := 6000000,
                         p99th := 7000000, mean := 5000000 } }
        10 { avg_cpu := 0, max_cpu := 0, avg_memory_mb := 0, max_memory_mb := 0 }
      ).avg_ms = 5 := by
  have h := C1_record_metrics 100
    { requests := 1000, success := 9/10, rate := 100,
      latencies := { p50th := 4000000, p95th := 6000000,
                     p99th := 7000000, mean := 5000000 } }
    10 { avg_cpu := 0, max_cpu := 0, avg_memory_mb := 0, max_memory_mb := 0 }
    (by decide)
  refine ⟨by decide, ?_, ?_⟩
  · rw [h.1]; norm_num
  · rw [h.2.2.2.2]; norm_num

/-! ### Helper lemmas about `listMax` (shared) -/

theorem Bench.listMax_cons (x a : ℚ) (xs : List ℚ) :
    Bench.listMax x (a :: xs) = Bench.listMax (max x a) xs := rfl

theorem Bench.listMax_mem (x : ℚ) (xs : List ℚ) :
    Bench.listMax x xs = x ∨ Bench.listMax x xs ∈ xs := by
  induction xs generalizing x with
  | nil => left; rfl
  | cons a xs ih =>
    rw [Bench.listMax_cons]
    rcases ih (max x a) with h | h
    · rcases max_choice x a with hc | hc
      · left; rw [h, hc]
      · right; rw [h, hc]; exact List.mem_cons_self a xs
    · right; exact List.mem_cons_of_mem a h

theorem Bench.le_listMax_self (x : ℚ) (xs : List ℚ) :
    x ≤ Bench.listMax x xs := by
  induction xs generalizing x with
  | nil => exact le_refl x
  | cons a xs ih =>
    rw [Bench.listMax_cons]
    exact le_trans (le_max_left x a) (ih (max x a))

theorem Bench.le_listMax_of_mem (y x : ℚ) (xs : List ℚ) (h : y ∈ xs) :
    y ≤ Bench.listMax x xs := by
  induction xs generalizing x with
  | nil => cases h
  | cons a xs ih =>
    rw [Bench.listMax_cons]
    rcases List.mem_cons.mp h with h1 | h1
    · subst h1
      exact le_trans (le_max_right x y) (Bench.le_listMax_self _ xs)
    · exact ih (max x a) h1

/-! ### C8 -/

/-- C8: summarizing an empty resource series never fails and yields the
all-zero summary; for a non-empty series the `avg` fields are the
arithmetic means and the `max` fields are maxima (a member of the column
that bounds every sample) of the CPU and memory columns. -/
theorem C8_analyze_cpu_data :
    Bench.analyze_cpu_data []
      = { avg_cpu := 0, max_cpu := 0, avg_memory_mb := 0, max_memory_mb := 0 }
    ∧ ∀ s rest,
        (Bench.analyze_cpu_data (s :: rest)).avg_cpu
          = ((s :: rest).map Bench.ResourceSample.cpu_percent).sum
            / (((s :: rest).length : ℚ))
        ∧ (Bench.analyze_cpu_data (s :: rest)).avg_memory_mb
          = ((s :: rest).map Bench.ResourceSample.rss_mb).sum
            / (((s :: rest).length : ℚ))
        ∧ (Bench.analyze_cpu_data (s :: rest)).max_cpu
            ∈ (s :: rest).map Bench.ResourceSample.cpu_percent
        ∧ (∀ c ∈ (s :: rest).map Bench.ResourceSample.cpu_percent,
            c ≤ (Bench.analyze_cpu_data (s :: rest)).max_cpu)
        ∧ (Bench.analyze_cpu_data (s :: rest)).max_memory_mb
            ∈ (s :: rest).map Bench.ResourceSample.rss_mb
        ∧ (∀ m ∈ (s :: rest).map Bench.ResourceSample.rss_mb,
            m ≤ (Bench.analyze_cpu_data (s :: rest)).max_memory_mb) := by
  refine ⟨rfl, fun s rest => ⟨?_, ?_, ?_, ?_, ?_, ?_⟩⟩
  · simp [Bench.analyze_cpu_data]
  · simp [Bench.analyze_cpu_data]
  · show Bench.listMax s.cpu_percent (rest.map Bench.ResourceSample.cpu_percent)
        ∈ s.cpu_percent :: rest.map Bench.ResourceSample.cpu_percent
    rcases Bench.listMax_mem s.cpu_percent (rest.map Bench.ResourceSample.cpu_percent)
      with h | h
    · rw [h]; exact List.mem_cons_self _ _
    · exact List.mem_cons_of_mem _ h
  · intro c hc
    rcases List.mem_cons.mp hc with h | h
    · subst h; exact Bench.le_listMax_self _ _
    · exact Bench.le_listMax_of_mem _ _ _ h
  · show Bench.listMax s.rss_mb (rest.map Bench.ResourceSample.rss_mb)
        ∈ s.rss_mb :: rest.map Bench.ResourceSample.rss_mb
    rcases Bench.listMax_mem s.rss_mb (rest.map Bench.ResourceSample.rss_mb)
      with h | h
    · rw [h]; exact List.mem_cons_self _ _
    · exact List.mem_cons_of_mem _ h
  · intro m hm
    rcases List.mem_cons.mp hm with h | h
    · subst h; exact Bench.le_listMax_self _ _
    · exact Bench.le_listMax_of_mem _ _ _ h

/-- C8 witness: a concrete two-sample series has mean CPU 60 and its peak
CPU bounds the first sample. -/
theorem C8_analyze_cpu_data_witness :
    (Bench.analyze_cpu_data [⟨0, 50, 100⟩, ⟨1, 70, 80⟩]).avg_cpu = 60
    ∧ (50 : ℚ) ≤ (Bench.analyze_cpu_data [⟨0, 50, 100⟩, ⟨1, 70, 80⟩]).max_cpu := by
  have h := C8_analyze_cpu_data.2 ⟨0, 50, 100⟩ [⟨1, 70, 80⟩]
  constructor
  · rw [h.1]; norm_num
  · exact h.2.2.2.1 50 (by simp)

/-! ### C2 and C3 -/

/-- C2 counterexample: a seed request that times out raises
`subprocess.TimeoutExpired`, which the `except subprocess.CalledProcessError`
of the seed step does not catch; the exception propagates out of the cycle
(aborting the whole run) and `stop_server` is never reached. -/
theorem C2_counterexample_seed_timeout :
    (Bench.runCycle .seedTimeoutExpired [] 7).outcome = .raised
    ∧ (Bench.runCycle .seedTimeoutExpired [] 7).stopServerCalled = false := by
  decide

/-- C2 amended: failures of the health gate, a seed failure of kind
`CalledProcessError`, a smoke-check non-zero exit or timeout, a vegeta
non-zero exit, and any exception inside the attack/report/record block are
contained — the cycle terminates its instance and the run proceeds.  An
exception during spawn, or a seed-request timeout, is NOT caught at the
cycle boundary: it propagates and aborts the run. -/
theorem C2_cycle_failure_containment (e : Bench.CycleEvent)
    (registry : List ℕ) (pid : ℕ) :
    ((Bench.runCycle e registry pid).outcome ≠ .raised
      ↔ e ≠ .spawnRaises ∧ e ≠ .seedTimeoutExpired)
    ∧ (e ≠ .spawnRaises ∧ e ≠ .seedTimeoutExpired
      → (Bench.runCycle e registry pid).stopServerCalled = true) := by
  cases e <;> simp [Bench.runCycle]

/-- C2 witness: an exception inside the attack phase is contained and the
instance is stopped. -/
theorem C2_cycle_failure_containment_witness :
    (Bench.runCycle .attackPhaseRaises [] 7).stopServerCalled = true :=
  (C2_cycle_failure_containment .attackPhaseRaises [] 7).2
    ⟨by decide, by decide⟩

/-- C3 counterexample: after a cycle whose seed request timed out, the
just-started server is still registered in `active_processes` and
`stop_server` was never called on it. -/
theorem C3_counterexample_registry_leak :
    (Bench.runCycle .seedTimeoutExpired [] 7).registry = [7]
    ∧ (Bench.runCycle .seedTimeoutExpired [] 7).stopServerCalled = false := by
  decide

/-- C3 amended: after every cycle that terminates without propagating an
exception — success or any handled failure — `active_processes` contains
no entry for the instance of that cycle: `stop_server` ran before the next
cycle.  A cycle that propagates (spawn exception, seed timeout) instead
leaves its entry behind for the atexit/signal cleanup sweep. -/
theorem C3_registry_drained (e : Bench.CycleEvent) (registry : List ℕ)
    (pid : ℕ) (hfresh : pid ∉ registry)
    (hdone : (Bench.runCycle e registry pid).outcome ≠ .raised) :
    pid ∉ (Bench.runCycle e registry pid).registry
    ∧ (Bench.runCycle e registry pid).stopServerCalled = true := by
  have key : pid ∉ (registry ++ [pid]).erase pid := by
    rw [List.erase_append_right _ hfresh]
    simpa using hfresh
  cases e <;> simp [Bench.runCycle] at hdone ⊢ <;>
    first
      | exact absurd rfl hdone
      | simpa using key

/-- C3 witness: a successful cycle starting from an empty registry leaves
no entry for its pid and did call `stop_server`. -/
theorem C3_registry_drained_witness :
    7 ∉ (Bench.runCycle .success [] 7).registry
    ∧ (Bench.runCycle .success [] 7).stopServerCalled = true :=
  C3_registry_drained .success [] 7 (by decide) (by decide)

/-! ### C9 -/

/-- C9: `stop_server` never lets an exception escape, and it is idempotent:
once an instance has been stopped (or was already dead), a further
`stop_server` on it is a no-op — same process state, same registry, no
error.  The hypothesis says the pid was registered at most once, which
`start_server` guarantees (one `append` per spawn). -/
theorem C9_stop_server_idempotent (p : Bench.Proc)
    (b b' : Bench.TermBehavior) (registry : List ℕ)
    (hcount : registry.count p.pid ≤ 1) :
    (Bench.stop_server p b registry).raisedError = false
    ∧ Bench.stop_server (Bench.stop_server p b registry).proc b'
        (Bench.stop_server p b registry).registry
      = { proc := (Bench.stop_server p b registry).proc,
          registry := (Bench.stop_server p b registry).registry,
          raisedError := false } := by
  obtain ⟨pidv, rc⟩ := p
  have hcount1 : registry.count pidv ≤ 1 := hcount
  have hz : (registry.erase pidv).count pidv = 0 := by
    have h := registry.count_erase_self pidv
    omega
  have hmem : pidv ∉ registry.erase pidv :=
    List.count_eq_zero.mp hz
  cases rc <;> cases b <;> cases b' <;>
    simp [Bench.stop_server, List.erase_of_not_mem hmem]

/-- C9 witness: stopping a live registered instance and then stopping it
again changes nothing and produces no error. -/
theorem C9_stop_server_idempotent_witness :
    Bench.stop_server
        (Bench.stop_server ⟨7, none⟩ .exitsOnTerm [7]).proc .ignoresTerm
        (Bench.stop_server ⟨7, none⟩ .exitsOnTerm [7]).registry
      = { proc := (Bench.stop_server ⟨7, none⟩ .exitsOnTerm [7]).proc,
          registry := (Bench.stop_server ⟨7, none⟩ .exitsOnTerm [7]).registry,
          raisedError := false } :=
  (C9_stop_server_idempotent ⟨7, none⟩ .exitsOnTerm .ignoresTerm [7]
    (by decide)).2

/-! ### C4 -/

/-- C4 counterexample: when the route table is unavailable (the import of
`app.main` raises), discovery returns the empty mapping instead of raising,
and `main` returns normally — the interpreter exit status is 0, not
non-zero. -/
theorem C4_counterexample_discovery_failure_exit_zero :
    Bench.discover_benchmark_endpoints false Bench.appRoutes none = []
    ∧ Bench.mainExitCode false Bench.appRoutes none [] = 0 := by
  decide

/-- C4 amended: if the route table is unavailable,
`discover_benchmark_endpoints` catches the exception and returns the empty
mapping; `main` then prints an error and returns normally, so the process
exits 0 — discovery failure is never a non-zero exit.  A non-zero exit
arises only from an exception escaping `main`, i.e. a cycle whose failure
mode propagates. -/
theorem C4_discovery_failure_soft (routes : List Bench.Route)
    (pathFilter : Option String) (cycleEvents : List Bench.CycleEvent) :
    Bench.discover_benchmark_endpoints false routes pathFilter = []
    ∧ Bench.mainExitCode false routes pathFilter cycleEvents = 0
    ∧ (Bench.mainExitCode true routes pathFilter cycleEvents ≠ 0
      → ∃ e ∈ cycleEvents, (Bench.runCycle e [] 0).outcome = .raised) := by
  refine ⟨rfl, by simp [Bench.mainExitCode, Bench.discover_benchmark_endpoints], ?_⟩
  intro hne
  by_cases hd :
      (Bench.discover_benchmark_endpoints true routes pathFilter).isEmpty
  · exact absurd (by simp [Bench.mainExitCode, hd]) hne
  · by_cases ha : cycleEvents.any
        (fun e => decide ((Bench.runCycle e [] 0).outcome = .raised)) = true
    · obtain ⟨e, he, hr⟩ := List.any_eq_true.mp ha
      exact ⟨e, he, of_decide_eq_true hr⟩
    · exact absurd (by simp [Bench.mainExitCode, hd, ha]) hne

/-- C4 witness: a failed-discovery run exits 0, and a run containing a
propagating cycle failure (a seed-request timeout) is a raised cycle. -/
theorem C4_discovery_failure_soft_witness :
    Bench.mainExitCode false Bench.appRoutes none [] = 0
    ∧ ∃ e ∈ [Bench.CycleEvent.seedTimeoutExpired],
        (Bench.runCycle e [] 0).outcome = .raised := by
  refine ⟨(C4_discovery_failure_soft Bench.appRoutes none []).2.1, ?_⟩
  exact (C4_discovery_failure_soft Bench.appRoutes none
    [Bench.CycleEvent.seedTimeoutExpired]).2.2 (by decide)

/-! ### C5 -/

/-- C5 counterexample: a probe that raises (e.g. the `ps` call exceeding
its 5 s timeout) hits the `except Exception ... break` of
`monitor_cpu_fast` and ends the series: the sample of the following tick
is lost, while the same schedule with a non-raising failure (`ps` exiting
non-zero) keeps sampling. -/
theorem C5_counterexample_probe_exception_breaks :
    Bench.monitor_cpu_fast
        [.sample 10 1024, .raisesException, .sample 20 2048] = [(10, 1)]
    ∧ Bench.monitor_cpu_fast
        [.sample 10 1024, .psNonzeroExit, .sample 20 2048]
      = [(10, 1), (20, 2)] := by
  constructor <;> norm_num [Bench.monitor_cpu_fast]

/-- C5 amended: a poll whose `ps` exits non-zero (process gone,
insufficient permission), prints nothing, or prints an unparsable or
header-only line is skipped and the loop continues with the next tick; but
a poll that raises an exception (e.g. a probe timeout) is logged and
`break`s the loop, terminating the sampling series early. -/
theorem C5_poll_failure_semantics (rest : List Bench.PollOutcome) :
    Bench.monitor_cpu_fast (.psNonzeroExit :: rest) = Bench.monitor_cpu_fast rest
    ∧ Bench.monitor_cpu_fast (.emptyOutput :: rest) = Bench.monitor_cpu_fast rest
    ∧ Bench.monitor_cpu_fast (.unparsableLine :: rest)
      = Bench.monitor_cpu_fast rest
    ∧ Bench.monitor_cpu_fast (.headerOnly :: rest) = Bench.monitor_cpu_fast rest
    ∧ Bench.monitor_cpu_fast (.raisesException :: rest) = [] :=
  ⟨rfl, rfl, rfl, rfl, rfl⟩

/-! ### C6 -/

/-- C6: the orchestrator persists its run under
`.tmp/clean_bench_{timestamp}/clean_results.json`, but the reporter only
globs `bench_*` and `fast_cpu_bench_*` and opens `fast_cpu_results.json`:
on a directory holding exactly one freshly persisted orchestrator run,
`find_latest_benchmark_dir` finds nothing (it raises `FileNotFoundError`),
and the file it would load is not the file the orchestrator wrote. -/
theorem C6_reporter_cannot_find_orchestrator_run :
    Bench.matchesBenchGlobs (Bench.cleanBenchDirName "20250101_000000") = false
    ∧ Bench.find_latest_benchmark_dir
        [(Bench.cleanBenchDirName "20250101_000000", 1735689600)] = none
    ∧ Bench.reporterResultsFile ≠ Bench.orchestratorResultsFile := by
  decide

/-! ### C7 -/

/-- C7: with no filter, discovery over the route table of the app keeps
exactly the nine GET/POST benchmark routes — every route whose path is in
the fixed infrastructure denylist (root, health, the API-doc paths, the
seed path) is dropped and nothing else is — keyed by function names that
are unique in the result; on the small table of the spec scenario
(health, root, one read route) it returns exactly the read route. -/
theorem C7_discover_no_filter :
    (Bench.discover_benchmark_endpoints true Bench.appRoutes none).map Prod.fst
      = ["simple_async", "simple_sync_threadpool", "simple_async_blocking",
         "get_item_async", "update_item_async_write",
         "get_item_sync_threadpool_read", "update_item_sync_threadpool_write",
         "get_item_async_blocking_read", "update_item_async_blocking_write"]
    ∧ ((Bench.discover_benchmark_endpoints true Bench.appRoutes none).map
        Prod.fst).Nodup
    ∧ (∀ r ∈ Bench.appRoutes,
        ((r.endpointName, r)
            ∈ Bench.discover_benchmark_endpoints true Bench.appRoutes none
          ↔ ((r.methods.contains "GET" || r.methods.contains "POST") = true
              ∧ r.path ∉ Bench.infrastructurePaths)))
    ∧ Bench.discover_benchmark_endpoints true
        [⟨"/health", ["GET"], "health"⟩, ⟨"/", ["GET"], "root"⟩,
         ⟨"/api/x/read/{id}", ["GET"], "read"⟩] none
      = [("read", ⟨"/api/x/read/{id}", ["GET"], "read"⟩)] := by
  refine ⟨by decide, by decide, by decide, by decide⟩

/-- C7 witness: the health route, although a GET route of the app, is not
discovered — its path is denylisted. -/
theorem C7_discover_no_filter_witness :
    ("health", (⟨"/health", ["GET"], "health"⟩ : Bench.Route))
      ∉ Bench.discover_benchmark_endpoints true Bench.appRoutes none := by
  intro hm
  have h := (C7_discover_no_filter.2.2.1
    ⟨"/health", ["GET"], "health"⟩ (by decide)).mp hm
  exact h.2 (by decide)

/-! ### C10 -/

/-- C10 counterexample: an internal exception whose text is not a decimal
numeral — here `database is locked` — yields the handler body
`{"inserted": 0, "error": "database is locked"}`, whose str-valued
`error` field fails the `dict[str, int]` response model: the endpoint
answers HTTP 500, not a 2xx response, while the no-op seed on a populated
store answers 200 — so a client that checks only the HTTP status does
distinguish them. -/
theorem C10_counterexample_error_seed_answers_500 :
    (Bench.seed_data (some "database is locked") []).1.status = 500
    ∧ (Bench.seed_data none [((1, "item-1", 1) : Bench.BenchRow)]).1.status
      = 200
    ∧ (Bench.seed_data (some "database is locked") []).1.status
      ≠ (Bench.seed_data none [((1, "item-1", 1) : Bench.BenchRow)]).1.status := by
  decide

/-- C10 amended: the seed handler itself never raises — every internal
exception is caught and the handler returns
`{"inserted": 0, "error": str(e)}` with the store untouched — but the
`dict[str, int]` return annotation of the route makes FastAPI reject the
str-valued `error` field, so the endpoint answers such exceptions with
HTTP 500 while the idempotent no-op on a populated store answers 200 with
`{"inserted": 0}`: a client that checks the HTTP status can distinguish a
failed seed from the no-op.  The seed step of the orchestrator still
cannot, because its `curl` has no `-f`: `check=True` passes on any
completed HTTP exchange regardless of status. -/
theorem C10_seed_error_surfaces_as_500 (e : String)
    (store store' : List Bench.BenchRow)
    (herr : Bench.parseDecimal e.toList = none)
    (hpop : store' ≠ []) :
    (Bench.seed_data (some e) store).1.body
      = [("inserted", .int 0), ("error", .str e)]
    ∧ (Bench.seed_data (some e) store).2 = store
    ∧ (Bench.seed_data (some e) store).1.status = 500
    ∧ (Bench.seed_data none store').1.status = 200
    ∧ (Bench.seed_data none store').1.body = [("inserted", .int 0)]
    ∧ (Bench.seed_data none store').2 = store'
    ∧ (Bench.seed_data (some e) store).1.status
      ≠ (Bench.seed_data none store').1.status
    ∧ ∀ resp resp',
        Bench.seedStepAccepts true resp = Bench.seedStepAccepts true resp' := by
  have hpe : store'.isEmpty = false := by
    cases store' with
    | nil => exact absurd rfl hpop
    | cons a l => rfl
  have hstatus : (Bench.seed_data (some e) store).1.status = 500 := by
    simp [Bench.seed_data, Bench.seed_data_handler, Bench.seedResponseStatus,
      Bench.validatesAsInt]
    exact herr
  refine ⟨rfl, rfl, hstatus, ?_, ?_, ?_, ?_, fun _ _ => rfl⟩
  · simp [Bench.seed_data, Bench.seed_data_handler, Bench.seedResponseStatus,
      Bench.validatesAsInt, hpe]
  · simp [Bench.seed_data, Bench.seed_data_handler, hpe]
  · simp [Bench.seed_data, Bench.seed_data_handler, hpe]
  · rw [hstatus]
    simp [Bench.seed_data, Bench.seed_data_handler, Bench.seedResponseStatus,
      Bench.validatesAsInt, hpe]

/-- C10 witness: the amended theorem at a concrete failed seed and a
concrete populated store — 500 against 200, both leaving their store as
it was. -/
theorem C10_seed_error_surfaces_as_500_witness :
    (Bench.seed_data (some "database is locked") []).1.status = 500
    ∧ (Bench.seed_data none [((2, "item-2", 2) : Bench.BenchRow)]).1.status
      = 200
    ∧ (Bench.seed_data none [((2, "item-2", 2) : Bench.BenchRow)]).2
      = [((2, "item-2", 2) : Bench.BenchRow)] := by
  have h := C10_seed_error_surfaces_as_500 "database is locked" []
    [((2, "item-2", 2) : Bench.BenchRow)] (by decide) (List.cons_ne_nil _ _)
  exact ⟨h.2.2.1, h.2.2.2.1, h.2.2.2.2.2.1⟩
